import Mathlib

/-!
Verification of the NCERT-Solver RAG core against its design description.

The Python sources are shallowly embedded as executable Lean definitions:

* `src/rag/rag_pipeline.py`
  - the backend selector in `RAGPipeline.__init__`  → `selectBackend`
  - the extractive fallback `SimpleLLM.generate`    → `SimpleLLM.generate`
  - language resolution inside `generate_response`  → `resolveLanguage`
  - `RAGPipeline._build_prompt`                     → `build_prompt`
  - `RAGPipeline.generate_response`                 → `generate_response`
* `src/api/main.py`
  - the `/assessment` endpoint `generate_assessment` → `generate_assessment`

External collaborators (the vector store's `search`, the model backends'
`generate`, the `translate` package, `langdetect.detect`) are passed in as
function parameters, exactly at the interface boundary the design draws;
an exception raised by such a collaborator is modelled as `none` / `.error`.
Python strings are modelled as `String` and the Python string operations
used by the source (`split`, `strip`, `startswith`, `rsplit`, slicing,
`join`, `replace`) are re-implemented over `List Char` by structural
recursion so that every definition evaluates by kernel reduction.
-/

/-- Python `text.split(sep)` helper: the prefix of `l` strictly before the
first occurrence of `sep` (all of `l` when `sep` does not occur). -/
def beforeFirst (sep : List Char) : List Char → List Char
  | [] => []
  | c :: cs => if sep.isPrefixOf (c :: cs) then [] else c :: beforeFirst sep cs

/-- Python `text.split(sep)` helper: the suffix of `l` strictly after the
first occurrence of `sep`, or `none` when `sep` does not occur. -/
def afterFirst (sep : List Char) : List Char → Option (List Char)
  | [] => none
  | c :: cs =>
    if sep.isPrefixOf (c :: cs) then some ((c :: cs).drop sep.length)
    else afterFirst sep cs

/-- Fuelled worker for `splitOnList`; the fuel only guards termination and
never runs out on the calls `splitOnList` makes with a non-empty separator. -/
def splitOnAux (sep : List Char) : Nat → List Char → List (List Char)
  | 0, l => [l]
  | fuel + 1, l =>
    match afterFirst sep l with
    | none => [l]
    | some rest => beforeFirst sep l :: splitOnAux sep fuel rest

/-- Python `text.split(sep)` for a non-empty separator, on character lists. -/
def splitOnList (sep l : List Char) : List (List Char) :=
  splitOnAux sep l.length l

/-- Python `s.split(sep)` on strings (non-empty `sep`). -/
def pySplit (sep s : String) : List String :=
  (splitOnList sep.data s.data).map String.mk

/-- Python `s.strip()`: drop leading and trailing whitespace. -/
def pyStrip (s : String) : String :=
  String.mk (((s.data.dropWhile Char.isWhitespace).reverse.dropWhile Char.isWhitespace).reverse)

/-- Python `sep.join(items)`. -/
def joinWith (sep : String) : List String → String
  | [] => ""
  | [s] => s
  | s :: rest => s ++ sep ++ joinWith sep rest

/-- The literal marker `SimpleLLM.generate` splits the prompt on
(`rag_pipeline.py` line 34). -/
def contextMarker : String := "Context:"

/-- `rag_pipeline.py` lines 33-38: `parts = prompt.split('Context:')`;
`ctx = parts[1]` when `len(parts) > 1`, else `ctx = prompt`. -/
def extractContext (prompt : String) : String :=
  match pySplit contextMarker prompt with
  | _ :: second :: _ => second
  | _ => prompt

/-- `rag_pipeline.py` line 44: the condition under which a stripped line is
kept: `s and len(s) > 15 and not s.startswith('---')`. -/
def keepLine (s : String) : Bool :=
  !s.data.isEmpty && decide (15 < s.data.length) && !(['-', '-', '-'].isPrefixOf s.data)

/-- `rag_pipeline.py` lines 41-45: split the context on newlines, strip each
line, keep the qualifying ones in order. -/
def qualifyingLines (ctx : String) : List String :=
  ((pySplit "\n" ctx).map pyStrip).filter keepLine

/-- Python `s.rsplit(' ', 1)[0]`: everything before the last space of `s`
(`s` itself when it holds no space). -/
def rsplitDropLast (s : String) : String :=
  if s.data.contains ' ' then
    String.mk (((s.data.reverse.dropWhile (fun c => !(c == ' '))).drop 1).reverse)
  else s

/-- `rag_pipeline.py` lines 50-51:
`if len(answer) > 400: answer = answer[:400].rsplit(' ', 1)[0] + '.'`. -/
def truncateAnswer (answer : String) : String :=
  if 400 < answer.data.length then
    rsplitDropLast (String.mk (answer.data.take 400)) ++ "."
  else answer

/-- `rag_pipeline.py` line 66: the canonical fallback string of the
extractive backend. -/
def canonicalFallback : String :=
  "I don't have information about that in my NCERT knowledge base."

/-- `rag_pipeline.py` line 61: the bracketed note appended when translation
into the requested language fails. -/
def translationNote (language : String) : String :=
  "\n[Note: Response in " ++ language ++ " unavailable. English provided above.]"

/-- `rag_pipeline.py` lines 30-66, `SimpleLLM.generate(prompt, language)`.
`translator text lang` models `Translator(from_lang='en', to_lang=lang).translate(text)`,
with `none` standing for a raised exception. -/
def SimpleLLM.generate (translator : String → String → Option String)
    (prompt : String) (language : String) : String :=
  let ctx := extractContext prompt
  let sentences := qualifyingLines ctx
  match sentences with
  | [] => canonicalFallback
  | _ :: _ =>
    let answer := truncateAnswer (joinWith " " (sentences.take 4))
    if !language.data.isEmpty && language != "en" then
      match translator answer language with
      | some t => t
      | none => answer ++ translationNote language
    else answer

/-- Metadata of a retrieved passage, as `generate_response` reads it:
`doc.metadata.get(key, default)`, a field being `none` when the key is
absent from the metadata dict. -/
structure DocMetadata where
  filename : Option String
  page : Option String
  grade : Option String
  subject : Option String
deriving DecidableEq, Repr

/-- A passage returned by the vector store (`doc.page_content`, `doc.metadata`). -/
structure Document where
  page_content : String
  metadata : DocMetadata
deriving DecidableEq, Repr

/-- One entry of the `citations` list built in `rag_pipeline.py` lines 110-118. -/
structure Citation where
  source : String
  page : String
  grade : String
  subject : String
deriving DecidableEq, Repr

/-- The dict returned by `RAGPipeline.generate_response`. `response_language`
is `none` when the key is absent from the returned dict (the zero-passage
return at lines 94-98 carries only `answer` and `citations`). -/
structure Answer where
  answer : String
  citations : List Citation
  response_language : Option String
deriving DecidableEq, Repr

/-- `rag_pipeline.py` lines 112-118: one citation per retrieved passage, with
`metadata.get("filename", "Unknown")`, `metadata.get("page", "?")`,
`metadata.get("grade", "?")`, `metadata.get("subject", "?")`. -/
def mkCitation (doc : Document) : Citation :=
  { source := doc.metadata.filename.getD "Unknown"
    page := doc.metadata.page.getD "?"
    grade := doc.metadata.grade.getD "?"
    subject := doc.metadata.subject.getD "?" }

/-- Python truthiness of an optional string: `None` and `""` are falsy. -/
def pyTruthy : Option String → Bool
  | some s => !s.data.isEmpty
  | none => false

/-- `rag_pipeline.py` lines 74-79: keep a truthy requested language, else
try `langdetect.detect(query)`, and on a detection exception (modelled by
`detect` returning `none`) fall back to `"en"`. -/
def resolveLanguage (detect : String → Option String) (language : Option String)
    (query : String) : String :=
  if pyTruthy language then language.getD ""
  else (detect query).getD "en"

/-- `RAGPipeline._build_prompt` (`rag_pipeline.py` lines 126-145). -/
def build_prompt (query context lang : String) : String :=
  if lang == "hi" then
    "आप एक सहायक एआई हैं। नीचे दिए गए संदर्भ का उपयोग करके छात्र के प्रश्न का उत्तर दें। \nयदि उत्तर संदर्भ में नहीं है, तो कहें \"मुझे नहीं पता\"।\n\nसंदर्भ:\n"
      ++ context ++ "\n\nप्रश्न: " ++ query ++ "\nउत्तर:"
  else
    "You are a helpful AI assistant for students. Answer the student's question using only the provided context. \nIf the answer is not in the context, say \"I don't know\". \nAlways provide a clear and simple explanation suitable for students.\n\nContext:\n"
      ++ context ++ "\n\nQuestion: " ++ query ++ "\nAnswer:"

/-- `rag_pipeline.py` line 96: the fixed message of the zero-passage answer. -/
def notFoundMessage : String :=
  "I am sorry, but I don't have information about that in my NCERT knowledge base."

/-- `RAGPipeline.generate_response` (`rag_pipeline.py` lines 70-124),
parameterized by the selected backend's `generate` (`llm prompt lang`) and by
`langdetect.detect` (`none` = detection exception); the passages the vector
store's `search` returns for this request are the `docs` argument. -/
def generate_response (llm : String → String → String) (detect : String → Option String)
    (query : String) (language : Option String) (docs : List Document) : Answer :=
  let lang := resolveLanguage detect language query
  match docs with
  | [] => { answer := notFoundMessage, citations := [], response_language := none }
  | _ :: _ =>
    let context := joinWith "\n---\n" (docs.map Document.page_content)
    let prompt := build_prompt query context lang
    let response_text := llm prompt lang
    { answer := response_text
      citations := docs.map mkCitation
      response_language := some lang }

/-- The four generation backends `RAGPipeline.__init__` can select
(`rag_pipeline.py` lines 9-68). -/
inductive Backend where
  | ollamaLLM (model_name : String)
  | geminiLLM
  | localLLM
  | simpleLLM
deriving DecidableEq, Repr

/-- The backend selection of `RAGPipeline.__init__` (`rag_pipeline.py`
lines 9-68): `OLLAMA_MODEL` truthy → Ollama; else `GOOGLE_API_KEY` truthy →
Gemini; else construct the local OpenVINO backend, any exception during that
construction (modelled by `local_init = .error e`) being caught, so that the
extractive `SimpleLLM` fallback is installed instead. -/
def selectBackend (ollama_model google_api_key : Option String)
    (local_init : Except String Unit) : Backend :=
  if pyTruthy ollama_model then Backend.ollamaLLM (ollama_model.getD "")
  else if pyTruthy google_api_key then Backend.geminiLLM
  else
    match local_init with
    | Except.ok _ => Backend.localLLM
    | Except.error _ => Backend.simpleLLM

/-- The fields of `QueryRequest` (`main.py` lines 37-43) that the
`/assessment` endpoint reads; `None` is `none`. -/
structure QueryRequest where
  query : String
  grade : Option String
  subject : Option String
  filename : Option String
deriving DecidableEq, Repr

/-- `main.py` lines 205-208: `namespace = f"{subject}_{grade}".replace(" ", "_")`
when both `request.subject` and `request.grade` are truthy, else `None`. -/
def deriveNamespace (subject grade : Option String) : Option String :=
  if pyTruthy subject && pyTruthy grade then
    some (String.mk
      (((subject.getD "") ++ "_" ++ (grade.getD "")).data.map
        (fun c => if c == ' ' then '_' else c)))
  else none

/-- The parsed JSON an assessment generation produces (`topic`, `flashcards`
as question-answer pairs, `quiz` as question, options, correct). -/
structure Assessment where
  topic : String
  flashcards : List (String × String)
  quiz : List (String × List String × String)
deriving DecidableEq, Repr

/-- `main.py` lines 262-268: the static payload the `except` branch of the
`/assessment` endpoint returns (`request.subject or "Study Session"`). -/
def fallbackAssessment (subject : Option String) : Assessment :=
  { topic := if pyTruthy subject then subject.getD "" else "Study Session"
    flashcards := [("Error generating flashcards", "Please try a more specific topic.")]
    quiz := [] }

/-- The `try` body of the `/assessment` endpoint (`main.py` lines 203-258):
retrieval with the request's query, the retry with `request.subject or
"NCERT"` when the first search is empty, the
`raise HTTPException(404, "No content found to generate assessment.")`
when both are empty (modelled as `Except.error` of its detail string), and
otherwise prompt building, generation and JSON parsing over the joined
context, abstracted as `generateJson` (whose `.error` models any exception
raised by generation or by `json.loads`). `search query namespace k filters`
is `pipe.vector_store.search`. -/
def generate_assessment_body
    (search : String → Option String → Nat → Option (List (String × String)) → List Document)
    (generateJson : String → Except String Assessment)
    (req : QueryRequest) : Except String Assessment :=
  let ns := deriveNamespace req.subject req.grade
  let filters : Option (List (String × String)) :=
    if pyTruthy req.filename then some [("filename", req.filename.getD "")] else none
  let docs := search req.query ns 8 filters
  let docs :=
    if docs.isEmpty then
      search (if pyTruthy req.subject then req.subject.getD "" else "NCERT") ns 8 filters
    else docs
  if docs.isEmpty then Except.error "No content found to generate assessment."
  else generateJson (joinWith "\n---\n" (docs.map Document.page_content))

/-- The whole `/assessment` endpoint (`main.py` lines 198-268): the `try`
body wrapped in `except Exception`, which catches every exception the body
raises — including the endpoint's own `HTTPException(404)` — and returns the
static fallback payload. -/
def generate_assessment
    (search : String → Option String → Nat → Option (List (String × String)) → List Document)
    (generateJson : String → Except String Assessment)
    (req : QueryRequest) : Assessment :=
  match generate_assessment_body search generateJson req with
  | Except.ok a => a
  | Except.error _ => fallbackAssessment req.subject

/-- Worded from the spec, for comparison with `extractContext` (§4.2 step 1):
"if the marker is present, use everything after the first occurrence as the
candidate context; else use the whole prompt". -/
def extractContextSpec (prompt : String) : String :=
  match afterFirst contextMarker.data prompt.data with
  | some rest => String.mk rest
  | none => prompt

/-- Worded from the spec, for comparison with `keepLine` (§4.2 step 2):
"a passage separator line (a line consisting of dashes)". -/
def isDashLine (s : String) : Bool :=
  !s.data.isEmpty && s.data.all (fun c => c == '-')

/-- Worded from the spec, for comparison with `keepLine` (§4.2 step 2): keep
a stripped line when non-empty, longer than 15 characters, and not a line
consisting of dashes. -/
def keepLineSpec (s : String) : Bool :=
  !s.data.isEmpty && decide (15 < s.data.length) && !(isDashLine s)

/-- Helper: a non-empty optional string is Python-truthy. -/
theorem pyTruthy_some_of_ne (m : String) (h : m.data ≠ []) : pyTruthy (some m) = true := by
  simp [pyTruthy, h]

/-- C1 (amended): for every query for which the document store returns zero
passages, `generate_response` returns a terminal Answer holding the fixed
not-found message and an empty citations list, without raising; the returned
dict carries no `response_language` key. -/
theorem C1_no_docs_terminal (llm : String → String → String)
    (detect : String → Option String) (query : String) (language : Option String) :
    generate_response llm detect query language [] =
      { answer := notFoundMessage, citations := [], response_language := none } := rfl

/-- C1 counterexample: on a zero-passage query the resolved language is
`"en"`, yet the returned answer does not carry it — the `response_language`
key is absent from the zero-passage return of `generate_response`
(`rag_pipeline.py` lines 94-98), contradicting the claim that the terminal
Answer contains the resolved response language. -/
theorem C1_counterexample :
    resolveLanguage (fun _ => none) none "what is soil" = "en"
    ∧ (generate_response (fun _ _ => "generated") (fun _ => none)
        "what is soil" none []).response_language = none
    ∧ (generate_response (fun _ _ => "generated") (fun _ => none)
        "what is soil" none []).response_language ≠ some "en" := by
  refine ⟨rfl, rfl, ?_⟩
  decide

/-- C2: evaluating the `/assessment` endpoint at an input where both the
original retrieval and the subject retry return zero passages: the `try`
body does raise the "no content" signal (the 404 with detail
"No content found to generate assessment."), but the endpoint's own broad
`except Exception` catches that very exception and returns the static
fallback payload to the caller instead. The third conjunct checks the retry
itself: when only the subject query ("Science") has hits, generation runs
over the retried passages. -/
theorem C2_no_content_swallowed :
    generate_assessment_body (fun _ _ _ _ => [])
        (fun c => Except.ok { topic := c, flashcards := [], quiz := [] })
        { query := "photosynthesis", grade := some "5", subject := some "Science", filename := none }
      = Except.error "No content found to generate assessment."
    ∧ generate_assessment (fun _ _ _ _ => [])
        (fun c => Except.ok { topic := c, flashcards := [], quiz := [] })
        { query := "photosynthesis", grade := some "5", subject := some "Science", filename := none }
      = fallbackAssessment (some "Science")
    ∧ generate_assessment_body
        (fun q _ _ _ =>
          if q == "Science" then
            [{ page_content := "Plants make food by photosynthesis in leaves.",
               metadata := { filename := none, page := none, grade := none, subject := none } }]
          else [])
        (fun c => Except.ok { topic := c, flashcards := [], quiz := [] })
        { query := "photosynthesis", grade := some "5", subject := some "Science", filename := none }
      = Except.ok { topic := "Plants make food by photosynthesis in leaves.",
                    flashcards := [], quiz := [] } :=
  ⟨rfl, rfl, rfl⟩

/-- C3: backend selection follows the strict first-match-wins priority: a
truthy `OLLAMA_MODEL` selects the Ollama backend whatever the other
configuration; otherwise a truthy `GOOGLE_API_KEY` selects Gemini; otherwise
the local backend is constructed, a construction success installing it and a
construction failure being caught (never propagated) with the deterministic
extractive `SimpleLLM` installed instead — `selectBackend` is total, so
selection itself never raises. -/
theorem C3_backend_priority (ollama_model google_api_key : Option String)
    (local_init : Except String Unit) :
    (∀ m : String, ollama_model = some m → m.data ≠ [] →
        selectBackend ollama_model google_api_key local_init = Backend.ollamaLLM m)
    ∧ (pyTruthy ollama_model = false → pyTruthy google_api_key = true →
        selectBackend ollama_model google_api_key local_init = Backend.geminiLLM)
    ∧ (pyTruthy ollama_model = false → pyTruthy google_api_key = false →
        local_init = Except.ok () →
        selectBackend ollama_model google_api_key local_init = Backend.localLLM)
    ∧ (pyTruthy ollama_model = false → pyTruthy google_api_key = false →
        ∀ e : String, local_init = Except.error e →
          selectBackend ollama_model google_api_key local_init = Backend.simpleLLM) := by
  refine ⟨?_, ?_, ?_, ?_⟩
  · intro m hm hne
    subst hm
    simp [selectBackend, pyTruthy_some_of_ne m hne]
  · intro h1 h2
    simp [selectBackend, h1, h2]
  · intro h1 h2 h3
    simp [selectBackend, h1, h2, h3]
  · intro h1 h2 e h3
    simp [selectBackend, h1, h2, h3]

/-- C3 witness: with both a local-runtime model name and a remote API key
configured (and the on-device tier failing), the Ollama backend is selected. -/
theorem C3_backend_priority_witness :
    selectBackend (some "llama3") (some "AIza-test-key") (Except.error "no OpenVINO runtime")
      = Backend.ollamaLLM "llama3" :=
  (C3_backend_priority (some "llama3") (some "AIza-test-key")
    (Except.error "no OpenVINO runtime")).1 "llama3" rfl (by decide)

/-- C7: language resolution returns a truthy (non-empty) requested language
unchanged; on a falsy request it runs detection on the query text, returning
the detected code on success and `"en"` on any detection failure (modelled
by `detect` returning `none`, which also covers empty or undetectable
text) — and, being a total function, it never raises outward. -/
theorem C7_resolve_language (detect : String → Option String)
    (requested : Option String) (query : String) :
    (∀ l : String, requested = some l → l.data ≠ [] →
        resolveLanguage detect requested query = l)
    ∧ (pyTruthy requested = false →
        (detect query = none → resolveLanguage detect requested query = "en")
        ∧ ∀ l : String, detect query = some l → resolveLanguage detect requested query = l) := by
  refine ⟨?_, ?_⟩
  · intro l hl hne
    subst hl
    simp [resolveLanguage, pyTruthy_some_of_ne l hne]
  · intro h
    refine ⟨?_, ?_⟩
    · intro hd
      simp [resolveLanguage, h, hd]
    · intro l hd
      simp [resolveLanguage, h, hd]

/-- C7 witness: an explicit request always wins (`resolve_language("ta", "any
text") = "ta"`), and an empty query with no requested language defaults to
`"en"`. -/
theorem C7_resolve_language_witness :
    resolveLanguage (fun _ => none) (some "ta") "any text" = "ta"
    ∧ resolveLanguage (fun _ => none) none "" = "en" :=
  ⟨(C7_resolve_language (fun _ => none) (some "ta") "any text").1 "ta" rfl (by decide),
   ((C7_resolve_language (fun _ => none) none "").2 rfl).1 rfl⟩

/-- C8: whenever the candidate context of a prompt yields no qualifying
lines, the extractive fallback returns exactly the canonical string
"I don't have information about that in my NCERT knowledge base.",
whatever the language and however translation behaves. -/
theorem C8_no_qualifying_lines (translator : String → String → Option String)
    (prompt language : String)
    (h : qualifyingLines (extractContext prompt) = []) :
    SimpleLLM.generate translator prompt language = canonicalFallback := by
  simp [SimpleLLM.generate, h]

/-- C8 witness: a short prompt ("hi") has no qualifying line, so the
canonical fallback string is returned. -/
theorem C8_no_qualifying_lines_witness :
    SimpleLLM.generate (fun _ _ => none) "hi" "ta" = canonicalFallback :=
  C8_no_qualifying_lines (fun _ _ => none) "hi" "ta" (by decide)

/-- C9: for every non-empty passage list, `generate_response` returns exactly
one citation per passage, in retrieval order (elementwise, the i-th citation
comes from the i-th passage), each built from the passage's source filename,
page, grade and subject with every absent metadata field individually
replaced by its placeholder ("Unknown" for the source, "?" otherwise), and
never fails on incomplete metadata. -/
theorem C9_citations_order (llm : String → String → String)
    (detect : String → Option String) (query : String) (language : Option String)
    (docs : List Document) (h : docs ≠ []) :
    (generate_response llm detect query language docs).citations = docs.map mkCitation
    ∧ (generate_response llm detect query language docs).citations.length = docs.length
    ∧ (∀ i : Nat, (generate_response llm detect query language docs).citations[i]?
        = (docs[i]?).map mkCitation)
    ∧ (∀ content : String,
        mkCitation { page_content := content
                     metadata := { filename := none, page := none, grade := none, subject := none } }
          = { source := "Unknown", page := "?", grade := "?", subject := "?" })
    ∧ (∀ content f p g sb,
        mkCitation { page_content := content
                     metadata := { filename := some f, page := some p
                                   grade := some g, subject := some sb } }
          = { source := f, page := p, grade := g, subject := sb }) := by
  obtain ⟨d, ds, rfl⟩ : ∃ d ds, docs = d :: ds := by
    cases docs with
    | nil => exact absurd rfl h
    | cons d ds => exact ⟨d, ds, rfl⟩
  refine ⟨rfl, ?_, ?_, ?_, ?_⟩
  · simp [generate_response]
  · intro i
    exact List.getElem?_map mkCitation (d :: ds) i
  · intro content
    rfl
  · intro content f p g sb
    rfl

/-- C9 witness: two passages, the first with partial metadata and the second
with none, yield exactly two citations in retrieval order, with each absent
field individually defaulted. -/
theorem C9_citations_order_witness :
    (generate_response (fun _ _ => "text") (fun _ => none) "q" (some "en")
        [{ page_content := "c1"
           metadata := { filename := some "book.pdf", page := some "12"
                         grade := none, subject := some "Science" } },
         { page_content := "c2"
           metadata := { filename := none, page := none, grade := none, subject := none } }]).citations
      = [{ source := "book.pdf", page := "12", grade := "?", subject := "Science" },
         { source := "Unknown", page := "?", grade := "?", subject := "?" }] := by
  have h := C9_citations_order (fun _ _ => "text") (fun _ => none) "q" (some "en")
    [{ page_content := "c1"
       metadata := { filename := some "book.pdf", page := some "12"
                     grade := none, subject := some "Science" } },
     { page_content := "c2"
       metadata := { filename := none, page := none, grade := none, subject := none } }]
    (by decide)
  exact h.1.trans (by decide)

/-- Helper: the value `SimpleLLM.generate` returns once the qualifying lines
are known to be non-empty. -/
theorem generate_eq_assembled (translator : String → String → Option String)
    (prompt language a : String) (rest : List String)
    (hs : qualifyingLines (extractContext prompt) = a :: rest) :
    SimpleLLM.generate translator prompt language =
      (if !language.data.isEmpty && language != "en" then
        match translator (truncateAnswer (joinWith " " ((a :: rest).take 4))) language with
        | some t => t
        | none => truncateAnswer (joinWith " " ((a :: rest).take 4)) ++ translationNote language
      else truncateAnswer (joinWith " " ((a :: rest).take 4))) := by
  simp only [SimpleLLM.generate, hs]

/-- C10: for every prompt, language and translator behaviour, the extractive
fallback terminates and returns a string, and that string is always one of:
the canonical fallback (no qualifying lines), the assembled (possibly
truncated) answer, the answer with the bracketed translation-failure note,
or a successful translation of the answer — every internal failure,
translation failure included, is absorbed. -/
theorem C10_generate_total_shape (translator : String → String → Option String)
    (prompt language : String) :
    SimpleLLM.generate translator prompt language = canonicalFallback
    ∨ SimpleLLM.generate translator prompt language
        = truncateAnswer (joinWith " " ((qualifyingLines (extractContext prompt)).take 4))
    ∨ SimpleLLM.generate translator prompt language
        = truncateAnswer (joinWith " " ((qualifyingLines (extractContext prompt)).take 4))
          ++ translationNote language
    ∨ (∃ t : String,
        translator (truncateAnswer (joinWith " " ((qualifyingLines (extractContext prompt)).take 4)))
            language = some t
        ∧ SimpleLLM.generate translator prompt language = t) := by
  cases hs : qualifyingLines (extractContext prompt) with
  | nil =>
    left
    simp [SimpleLLM.generate, hs]
  | cons a rest =>
    cases hif : (!language.data.isEmpty && language != "en") with
    | false =>
      right; left
      rw [generate_eq_assembled translator prompt language a rest hs, hif,
        if_neg Bool.false_ne_true]
    | true =>
      cases ht : translator (truncateAnswer (joinWith " " ((a :: rest).take 4))) language with
      | none =>
        right; right; left
        rw [generate_eq_assembled translator prompt language a rest hs, hif, if_pos rfl, ht]
      | some t =>
        right; right; right
        exact ⟨t, rfl, by
          rw [generate_eq_assembled translator prompt language a rest hs, hif, if_pos rfl, ht]⟩

/-- Helper: when the separator does not occur, `beforeFirst` keeps the list. -/
theorem beforeFirst_of_afterFirst_none (sep : List Char) :
    ∀ l : List Char, afterFirst sep l = none → beforeFirst sep l = l := by
  intro l
  induction l with
  | nil => intro _; rfl
  | cons c cs ih =>
    intro h
    cases hp : sep.isPrefixOf (c :: cs) with
    | true => simp [afterFirst, hp] at h
    | false =>
      simp only [afterFirst, hp, Bool.false_eq_true, if_false] at h
      simp [beforeFirst, hp, ih h]

/-- Helper: dropping a non-empty separator strictly shortens the list. -/
theorem afterFirst_length_lt (sep : List Char) (hsep : sep ≠ []) :
    ∀ l rest : List Char, afterFirst sep l = some rest → rest.length < l.length := by
  intro l
  induction l with
  | nil => intro rest h; simp [afterFirst] at h
  | cons c cs ih =>
    intro rest h
    cases hp : sep.isPrefixOf (c :: cs) with
    | true =>
      simp only [afterFirst, hp, if_true, Option.some.injEq] at h
      subst h
      rw [List.length_drop]
      exact Nat.sub_lt (Nat.succ_pos _) (List.length_pos.mpr hsep)
    | false =>
      simp only [afterFirst, hp, Bool.false_eq_true, if_false] at h
      exact Nat.lt_trans (ih rest h) (Nat.lt_succ_self _)

/-- Helper: with no occurrence of the separator, the split is the whole list. -/
theorem splitOnAux_of_none (sep : List Char) (fuel : Nat) (l : List Char)
    (h : afterFirst sep l = none) : splitOnAux sep fuel l = [l] := by
  cases fuel with
  | zero => rfl
  | succ n => simp [splitOnAux, h]

/-- Helper: enough fuel makes the split's first field `beforeFirst`. -/
theorem splitOnAux_head (sep : List Char) (fuel : Nat) (l : List Char)
    (hlen : l.length ≤ fuel) :
    ∃ tail, splitOnAux sep fuel l = beforeFirst sep l :: tail := by
  cases fuel with
  | zero =>
    have hnil : l = [] := List.length_eq_zero.mp (Nat.le_zero.mp hlen)
    subst hnil
    exact ⟨[], rfl⟩
  | succ n =>
    cases h : afterFirst sep l with
    | none => exact ⟨[], by simp [splitOnAux, h, beforeFirst_of_afterFirst_none sep l h]⟩
    | some rest => exact ⟨splitOnAux sep n rest, by simp [splitOnAux, h]⟩

/-- Helper: when the separator occurs, the split's second field is the text
between the first occurrence and the next one (or the end). -/
theorem splitOnList_second (sep l rest : List Char) (hsep : sep ≠ [])
    (h : afterFirst sep l = some rest) :
    ∃ tail, splitOnList sep l = beforeFirst sep l :: beforeFirst sep rest :: tail := by
  obtain ⟨c, cs, rfl⟩ : ∃ c cs, l = c :: cs := by
    cases l with
    | nil => simp [afterFirst] at h
    | cons c cs => exact ⟨c, cs, rfl⟩
  have hle : rest.length ≤ cs.length :=
    Nat.lt_succ_iff.mp (by simpa using afterFirst_length_lt sep hsep (c :: cs) rest h)
  obtain ⟨tail, htail⟩ := splitOnAux_head sep cs.length rest hle
  refine ⟨tail, ?_⟩
  unfold splitOnList
  simp only [List.length_cons, splitOnAux, h, htail]

/-- C4 (amended): in the extractive fallback, when the literal marker
"Context:" does not occur in the prompt the candidate context is the whole
prompt; when it occurs, the candidate context is the text strictly after the
first occurrence and strictly before the next occurrence of the marker (the
whole remaining text when the marker occurs only once) — the second field of
splitting the prompt on the marker, not all text after the first occurrence. -/
theorem C4_context_between_markers (prompt : String) :
    (afterFirst contextMarker.data prompt.data = none → extractContext prompt = prompt)
    ∧ (∀ rest : List Char, afterFirst contextMarker.data prompt.data = some rest →
        extractContext prompt = String.mk (beforeFirst contextMarker.data rest)) := by
  constructor
  · intro h
    unfold extractContext pySplit splitOnList
    rw [splitOnAux_of_none _ _ _ h]
    rfl
  · intro rest h
    obtain ⟨tail, ht⟩ := splitOnList_second contextMarker.data prompt.data rest (by decide) h
    unfold extractContext pySplit
    rw [ht]
    rfl

/-- C4 witness: on a prompt with a single marker the candidate context is
everything after it (here the marker occurs once, so "between the first
occurrence and the next" is the whole tail). -/
theorem C4_context_between_markers_witness :
    extractContext "Question about soil\nContext: soil is the upper layer of earth"
      = String.mk (beforeFirst contextMarker.data
          (" soil is the upper layer of earth").data) := by
  have h := (C4_context_between_markers
    "Question about soil\nContext: soil is the upper layer of earth").2
    (" soil is the upper layer of earth").data (by decide)
  exact h

/-- C4 counterexample: a prompt in which the marker "Context:" occurs twice.
The code's candidate context (`parts[1]`, the text between the two
occurrences) differs from the claim's "everything after the first
occurrence" (worded as `extractContextSpec`). -/
theorem C4_counterexample :
    extractContext "Context: first block of context\nContext: second block of context"
      ≠ extractContextSpec "Context: first block of context\nContext: second block of context"
    ∧ extractContext "Context: first block of context\nContext: second block of context"
      = " first block of context\n"
    ∧ extractContextSpec "Context: first block of context\nContext: second block of context"
      = " first block of context\nContext: second block of context" := by
  refine ⟨?_, rfl, rfl⟩
  decide

/-- Helper: a character list containing a space splits at its first space
under `dropWhile`/`takeWhile`. -/
theorem dropWhile_space_split (r : List Char) (hr : ' ' ∈ r) :
    ∃ t, r.dropWhile (fun c => !(c == ' ')) = ' ' :: t
      ∧ r.takeWhile (fun c => !(c == ' ')) ++ ' ' :: t = r
      ∧ ∀ c ∈ r.takeWhile (fun c => !(c == ' ')), c ≠ ' ' := by
  induction r with
  | nil => cases hr
  | cons c cs ih =>
    by_cases hc : c = ' '
    · subst hc
      exact ⟨cs, by simp [List.dropWhile_cons], by simp [List.takeWhile_cons],
        by simp [List.takeWhile_cons]⟩
    · have hcs : ' ' ∈ cs := by
        rcases List.mem_cons.mp hr with h | h
        · exact absurd h.symm hc
        · exact h
      obtain ⟨t, h1, h2, h3⟩ := ih hcs
      refine ⟨t, ?_, ?_, ?_⟩
      · simpa [List.dropWhile_cons, hc] using h1
      · simp [List.takeWhile_cons, hc, h2]
      · intro x hx
        simp only [List.takeWhile_cons] at hx
        rw [show (!(c == ' ')) = true by simp [hc], if_pos rfl] at hx
        rcases List.mem_cons.mp hx with rfl | hx
        · exact hc
        · exact h3 x hx

/-- Helper: on a list containing a space, `rsplitDropLast` drops exactly the
trailing spaceless segment together with the last space. -/
theorem rsplitDropLast_of_mem (pre : List Char) (hmem : ' ' ∈ pre) :
    ∃ w suf, pre = w ++ ' ' :: suf ∧ ' ' ∉ suf
      ∧ rsplitDropLast (String.mk pre) = String.mk w := by
  have hrev : ' ' ∈ pre.reverse := List.mem_reverse.mpr hmem
  obtain ⟨t, h1, h2, h3⟩ := dropWhile_space_split pre.reverse hrev
  refine ⟨t.reverse, (pre.reverse.takeWhile (fun c => !(c == ' '))).reverse, ?_, ?_, ?_⟩
  · have h4 := congrArg List.reverse h2
    rw [List.reverse_append, List.reverse_reverse] at h4
    simpa using h4.symm
  · intro hx
    exact h3 ' ' (List.mem_reverse.mp hx) rfl
  · unfold rsplitDropLast
    rw [if_pos (List.elem_iff.mpr hmem)]
    rw [show (String.mk pre).data = pre from rfl] at *
    rw [h1]
    rfl

/-- C5 (amended): when the joined answer exceeds 400 characters, the code
keeps the first 400 characters, drops everything from the last space of that
prefix on, and appends a period. When the 400-character prefix contains a
space this yields at most 400 characters, ending right after a whole word of
the prefix and ending with a period; when the prefix contains no space,
nothing is dropped and the result is the 400-character prefix plus a period —
401 characters. -/
theorem C5_truncation_amended (answer : String) (h : 400 < answer.data.length) :
    ((' ' ∈ answer.data.take 400) →
        (truncateAnswer answer).data.length ≤ 400
        ∧ ∃ w suf, answer.data.take 400 = w ++ ' ' :: suf ∧ ' ' ∉ suf
            ∧ truncateAnswer answer = String.mk (w ++ ['.']))
    ∧ ((' ' ∉ answer.data.take 400) →
        truncateAnswer answer = String.mk (answer.data.take 400 ++ ['.'])
        ∧ (truncateAnswer answer).data.length = 401) := by
  have htrunc : truncateAnswer answer = rsplitDropLast (String.mk (answer.data.take 400)) ++ "." := by
    unfold truncateAnswer
    rw [if_pos h]
  have hlen400 : (answer.data.take 400).length = 400 := by
    rw [List.length_take]
    exact Nat.min_eq_left (Nat.le_of_lt h)
  constructor
  · intro hmem
    obtain ⟨w, suf, hsplit, hnot, heq⟩ := rsplitDropLast_of_mem (answer.data.take 400) hmem
    have hres : truncateAnswer answer = String.mk (w ++ ['.']) := by
      rw [htrunc, heq]
      rfl
    have hwlen : w.length + (suf.length + 1) = 400 := by
      have h5 := congrArg List.length hsplit
      rw [hlen400] at h5
      simpa using h5.symm
    refine ⟨?_, w, suf, hsplit, hnot, hres⟩
    rw [hres]
    show (w ++ ['.']).length ≤ 400
    rw [List.length_append]
    simp only [List.length_cons, List.length_nil]
    omega
  · intro hnmem
    have hcontains : (answer.data.take 400).contains ' ' = false := by
      simp [List.contains, List.elem_iff, hnmem]
    have hid : rsplitDropLast (String.mk (answer.data.take 400))
        = String.mk (answer.data.take 400) := by
      unfold rsplitDropLast
      rw [show (String.mk (answer.data.take 400)).data = answer.data.take 400 from rfl,
        hcontains]
      simp
    have hres : truncateAnswer answer = String.mk (answer.data.take 400 ++ ['.']) := by
      rw [htrunc, hid]
      rfl
    refine ⟨hres, ?_⟩
    rw [hres]
    show (answer.data.take 400 ++ ['.']).length = 401
    rw [List.length_append, hlen400]
    rfl

set_option maxRecDepth 100000 in
/-- C5 witness: a 401-character answer whose 400-character prefix holds a
space (200 letters, a space, 200 letters) is truncated to at most 400
characters, ending at the prefix's last word boundary with a period. -/
theorem C5_truncation_amended_witness :
    (truncateAnswer (String.mk (List.replicate 200 'a' ++ ' ' :: List.replicate 200 'b'))).data.length ≤ 400
    ∧ ∃ w suf,
        (String.mk (List.replicate 200 'a' ++ ' ' :: List.replicate 200 'b')).data.take 400
          = w ++ ' ' :: suf
        ∧ ' ' ∉ suf
        ∧ truncateAnswer (String.mk (List.replicate 200 'a' ++ ' ' :: List.replicate 200 'b'))
          = String.mk (w ++ ['.']) :=
  (C5_truncation_amended (String.mk (List.replicate 200 'a' ++ ' ' :: List.replicate 200 'b'))
    (by decide)).1 (by decide)

set_option maxRecDepth 100000 in
/-- C5 counterexample: a prompt that is one 500-character line without
spaces qualifies (joined answer of 500 characters), yet the extractive
fallback returns 401 characters — `rsplit(' ', 1)` finds no space in the
400-character prefix, keeps all 400 characters and appends the period — so
the claimed "truncated to at most 400 characters" fails. -/
theorem C5_counterexample :
    (joinWith " "
        ((qualifyingLines (extractContext (String.mk (List.replicate 500 'a')))).take 4)).data.length
      = 500
    ∧ (SimpleLLM.generate (fun _ _ => none)
        (String.mk (List.replicate 500 'a')) "en").data.length = 401 := by
  constructor
  · decide
  · decide

/-- C6 (amended): the extractive fallback keeps a stripped context line
exactly when it is non-empty, longer than 15 characters, and does not START
with three dashes (`s.startswith('---')` — a dash-prefix test, not a test
that the line consists of dashes); the answer the backend returns (for the
default language, below the truncation threshold) is the first 4 such
qualifying lines joined with single spaces. -/
theorem C6_line_filter_amended :
    (∀ s : String, keepLine s = true ↔
        (s.data ≠ [] ∧ 15 < s.data.length ∧ ¬ ∃ t, s.data = '-' :: '-' :: '-' :: t))
    ∧ (∀ (translator : String → String → Option String) (prompt : String),
        qualifyingLines (extractContext prompt) ≠ [] →
        (joinWith " " ((qualifyingLines (extractContext prompt)).take 4)).data.length ≤ 400 →
        SimpleLLM.generate translator prompt "en"
          = joinWith " " ((qualifyingLines (extractContext prompt)).take 4)) := by
  constructor
  · intro s
    unfold keepLine
    rw [Bool.and_eq_true, Bool.and_eq_true]
    constructor
    · rintro ⟨⟨h1, h2⟩, h3⟩
      refine ⟨?_, of_decide_eq_true h2, ?_⟩
      · exact List.isEmpty_eq_false.mp (by simpa using h1)
      · rintro ⟨t, ht⟩
        rw [ht] at h3
        simp [List.isPrefixOf] at h3
    · rintro ⟨h1, h2, h3⟩
      refine ⟨⟨by simp [h1], decide_eq_true h2⟩, ?_⟩
      cases hp : ['-', '-', '-'].isPrefixOf s.data with
      | false => rfl
      | true =>
        exfalso
        obtain ⟨t, ht⟩ := List.isPrefixOf_iff_prefix.mp hp
        exact h3 ⟨t, ht.symm⟩
  · intro translator prompt h1 h2
    obtain ⟨a, rest, hs⟩ : ∃ a rest, qualifyingLines (extractContext prompt) = a :: rest := by
      cases hq : qualifyingLines (extractContext prompt) with
      | nil => exact absurd hq h1
      | cons a rest => exact ⟨a, rest, rfl⟩
    rw [hs] at h2
    rw [generate_eq_assembled translator prompt "en" a rest hs, hs]
    rw [show (!(String.data "en").isEmpty && ("en" != "en")) = false from rfl,
      if_neg Bool.false_ne_true]
    unfold truncateAnswer
    rw [if_neg (Nat.not_lt.mpr h2)]

/-- C6 witness: a 46-character line qualifies under the amended filter, and
a prompt holding just that line yields exactly that line as the answer. -/
theorem C6_line_filter_amended_witness :
    ((String.data "The mitochondria is the powerhouse of the cell") ≠ []
      ∧ 15 < (String.data "The mitochondria is the powerhouse of the cell").length
      ∧ ¬ ∃ t, (String.data "The mitochondria is the powerhouse of the cell")
          = '-' :: '-' :: '-' :: t)
    ∧ SimpleLLM.generate (fun _ _ => none)
        "Context:\nThe mitochondria is the powerhouse of the cell" "en"
      = "The mitochondria is the powerhouse of the cell" := by
  constructor
  · exact (C6_line_filter_amended.1 "The mitochondria is the powerhouse of the cell").mp
      (by decide)
  · have h := C6_line_filter_amended.2 (fun _ _ => none)
      "Context:\nThe mitochondria is the powerhouse of the cell" (by decide) (by decide)
    exact h.trans (by decide)

/-- C6 counterexample: the stripped line "--- Chapter 1: Introduction ---"
is non-empty, longer than 15 characters, and is not a line consisting of
dashes, so by the claim it should be kept (`keepLineSpec`); the code drops
it, because `s.startswith('---')` rejects every line that merely starts with
three dashes — and a prompt whose only long line is that one therefore falls
through to the canonical fallback string. -/
theorem C6_counterexample :
    keepLineSpec "--- Chapter 1: Introduction ---" = true
    ∧ keepLine "--- Chapter 1: Introduction ---" = false
    ∧ SimpleLLM.generate (fun _ _ => none)
        "Context:\n--- Chapter 1: Introduction ---" "en" = canonicalFallback := by
  refine ⟨rfl, rfl, ?_⟩
  decide
